import Mathlib

/-!
Verification of the cudf type-trait registry, column-view slice, pack/unpack,
and scalar-factory layer against the C++ sources
(`cpp/include/cudf/utilities/traits.hpp`, `cpp/include/cudf/detail/copy.hpp`,
`cpp/src/scalar/scalar_factories.cpp`).

The C++ code dispatches a runtime `type_id` tag to a compile-time element
type and evaluates trait predicates on that element type.  We embed the tag
set (`TypeId`), the dispatched element types (`CType`), the dispatcher's
tag-to-type mapping (`idToCType`) and each trait predicate from
`traits.hpp` as executable Lean functions.
-/

namespace Cudf

/-- The closed set of runtime type tags (`cudf::type_id`).  The `EMPTY`
sentinel is omitted: the type dispatcher has no valid instantiation for it,
so no trait predicate or factory in this development is defined on it. -/
inductive TypeId : Type where
  | INT8 | INT16 | INT32 | INT64
  | UINT8 | UINT16 | UINT32 | UINT64
  | FLOAT32 | FLOAT64
  | BOOL8
  | TIMESTAMP_DAYS | TIMESTAMP_SECONDS | TIMESTAMP_MILLISECONDS
  | TIMESTAMP_MICROSECONDS | TIMESTAMP_NANOSECONDS
  | DURATION_DAYS | DURATION_SECONDS | DURATION_MILLISECONDS
  | DURATION_MICROSECONDS | DURATION_NANOSECONDS
  | DICTIONARY32
  | STRING
  | LIST
  | DECIMAL32 | DECIMAL64
  | STRUCT
  deriving DecidableEq, Fintype, Repr

/-- The C++ element types the dispatcher instantiates operations with
(`id_to_type` images).  `cbool` stands for C++ `bool`. -/
inductive CType : Type where
  | int8 | int16 | int32 | int64
  | uint8 | uint16 | uint32 | uint64
  | float32 | float64
  | cbool
  | timestamp_D | timestamp_s | timestamp_ms | timestamp_us | timestamp_ns
  | duration_D | duration_s | duration_ms | duration_us | duration_ns
  | dictionary32
  | string_view
  | list_view
  | decimal32 | decimal64
  | struct_view
  deriving DecidableEq, Repr

/-- The type dispatcher's tag-to-element-type mapping
(`cudf::id_to_type`, declared in `type_dispatcher.hpp`). -/
def idToCType : TypeId → CType
  | .INT8 => .int8
  | .INT16 => .int16
  | .INT32 => .int32
  | .INT64 => .int64
  | .UINT8 => .uint8
  | .UINT16 => .uint16
  | .UINT32 => .uint32
  | .UINT64 => .uint64
  | .FLOAT32 => .float32
  | .FLOAT64 => .float64
  | .BOOL8 => .cbool
  | .TIMESTAMP_DAYS => .timestamp_D
  | .TIMESTAMP_SECONDS => .timestamp_s
  | .TIMESTAMP_MILLISECONDS => .timestamp_ms
  | .TIMESTAMP_MICROSECONDS => .timestamp_us
  | .TIMESTAMP_NANOSECONDS => .timestamp_ns
  | .DURATION_DAYS => .duration_D
  | .DURATION_SECONDS => .duration_s
  | .DURATION_MILLISECONDS => .duration_ms
  | .DURATION_MICROSECONDS => .duration_us
  | .DURATION_NANOSECONDS => .duration_ns
  | .DICTIONARY32 => .dictionary32
  | .STRING => .string_view
  | .LIST => .list_view
  | .DECIMAL32 => .decimal32
  | .DECIMAL64 => .decimal64
  | .STRUCT => .struct_view

/-- A runtime `cudf::data_type`: a type tag plus, for fixed-point types, a
scale.  For every non-fixed-point tag the stored scale is 0. -/
structure DataType : Type where
  id : TypeId
  scale : Int := 0
  deriving DecidableEq, Repr

/-- C++ `std::is_integral` restricted to the dispatched element types; note
that C++ `bool` IS an integral type. -/
def cppIsIntegral : CType → Bool
  | .int8 | .int16 | .int32 | .int64 => true
  | .uint8 | .uint16 | .uint32 | .uint64 => true
  | .cbool => true
  | _ => false

/-- C++ `std::is_floating_point` restricted to the dispatched element types. -/
def cppIsFloatingPoint : CType → Bool
  | .float32 | .float64 => true
  | _ => false

/-- C++ `std::is_unsigned` restricted to the dispatched element types
(`bool` is unsigned in C++). -/
def cppIsUnsigned : CType → Bool
  | .uint8 | .uint16 | .uint32 | .uint64 => true
  | .cbool => true
  | _ => false

/-- `cudf::is_numeric<T>()`: `std::is_integral<T>::value or
std::is_floating_point<T>::value` (traits.hpp:177-181). -/
def is_numeric (t : CType) : Bool :=
  cppIsIntegral t || cppIsFloatingPoint t

/-- `cudf::is_index_type<T>()`: integral and not `bool` (traits.hpp:218-222). -/
def is_index_type (t : CType) : Bool :=
  cppIsIntegral t && !(t == .cbool)

/-- `cudf::is_unsigned<T>()` (traits.hpp:255-259). -/
def is_unsigned (t : CType) : Bool :=
  cppIsUnsigned t

/-- `cudf::is_floating_point<T>()` (traits.hpp:301-305). -/
def is_floating_point (t : CType) : Bool :=
  cppIsFloatingPoint t

/-- `cudf::is_boolean<T>()`: `std::is_same_v<T, bool>` (traits.hpp:336-340). -/
def is_boolean (t : CType) : Bool :=
  t == .cbool

/-- `cudf::is_timestamp<T>()` via `is_timestamp_t` (traits.hpp:95-100,369-373). -/
def is_timestamp (t : CType) : Bool :=
  match t with
  | .timestamp_D | .timestamp_s | .timestamp_ms | .timestamp_us | .timestamp_ns => true
  | _ => false

/-- `cudf::is_fixed_point<T>()`: `decimal32` or `decimal64` (traits.hpp:404-408). -/
def is_fixed_point (t : CType) : Bool :=
  t == .decimal32 || t == .decimal64

/-- `cudf::is_duration<T>()` via `is_duration_t` (traits.hpp:102-107,437-441). -/
def is_duration (t : CType) : Bool :=
  match t with
  | .duration_D | .duration_s | .duration_ms | .duration_us | .duration_ns => true
  | _ => false

/-- `cudf::is_chrono<T>()`: duration or timestamp (traits.hpp:472-476). -/
def is_chrono (t : CType) : Bool :=
  is_duration t || is_timestamp t

/-- `cudf::is_rep_layout_compatible<T>()`: numeric, chrono or boolean
(traits.hpp:512-516). -/
def is_rep_layout_compatible (t : CType) : Bool :=
  is_numeric t || is_chrono t || is_boolean t

/-- `cudf::is_dictionary<T>()` (traits.hpp:525-529). -/
def is_dictionary (t : CType) : Bool :=
  t == .dictionary32

/-- `cudf::is_fixed_width<T>()`: numeric, chrono or fixed-point
(traits.hpp:559-565). -/
def is_fixed_width (t : CType) : Bool :=
  is_numeric t || is_chrono t || is_fixed_point t

/-- `cudf::is_compound<T>()`: `string_view`, `dictionary32`, `list_view`
or `struct_view` (traits.hpp:603-608). -/
def is_compound (t : CType) : Bool :=
  t == .string_view || t == .dictionary32 || t == .list_view || t == .struct_view

/-- `cudf::is_nested<T>()`: `list_view` or `struct_view` (traits.hpp:646-650). -/
def is_nested (t : CType) : Bool :=
  t == .list_view || t == .struct_view

/-- `cuda::std::is_trivially_copyable_v` on the dispatched element types.
Every dispatched element type (fundamental types, the chrono wrappers,
`fixed_point`, `string_view`, `dictionary32` and the empty `list_view` /
`struct_view` classes) is trivially copyable in C++. -/
def isTriviallyCopyable : CType → Bool
  | _ => true

/-- `cudf::device_storage_type_t`: `decimal32` is stored as `int32_t` and
`decimal64` as `int64_t`; every other dispatched type is its own storage
type (type_dispatcher.hpp). -/
def device_storage_type : CType → CType
  | .decimal32 => .int32
  | .decimal64 => .int64
  | t => t

/-- `sizeof` of a dispatched element type under the C++ ABI.  Chrono
wrappers have the size of their tick representation (`int32_t` for the
day-resolution types, `int64_t` otherwise); `fixed_point` carries its
representation plus an `int32_t` scale; `string_view` is a pointer and two
`size_type` fields; `dictionary32` wraps an `int32_t`; the empty
`list_view` / `struct_view` classes have size 1. -/
def cppSizeof : CType → Nat
  | .int8 | .uint8 | .cbool => 1
  | .int16 | .uint16 => 2
  | .int32 | .uint32 | .float32 => 4
  | .int64 | .uint64 | .float64 => 8
  | .timestamp_D | .duration_D => 4
  | .timestamp_s | .timestamp_ms | .timestamp_us | .timestamp_ns => 8
  | .duration_s | .duration_ms | .duration_us | .duration_ns => 8
  | .decimal32 => 8
  | .decimal64 => 16
  | .dictionary32 => 4
  | .string_view => 16
  | .list_view | .struct_view => 1

/-- `is_bit_castable_to_impl<FromType>::operator()<ToType>`
(traits.hpp:676-695): false when `ToType` is compound; otherwise requires
both sides trivially copyable and equal storage sizes. -/
def is_bit_castable_to (fromT toT : CType) : Bool :=
  if is_compound toT then false
  else if !isTriviallyCopyable fromT || !isTriviallyCopyable toT then false
  else cppSizeof (device_storage_type fromT) == cppSizeof (device_storage_type toT)

/-- `is_bit_castable_from_impl::operator()<FromType>(data_type to)`
(traits.hpp:697-709): false when `FromType` is compound, else dispatches
on `to`. -/
def is_bit_castable_from (fromT : CType) (toT : DataType) : Bool :=
  if is_compound fromT then false
  else is_bit_castable_to fromT (idToCType toT.id)

/-- `cudf::is_bit_castable(data_type from, data_type to)`
(traits.hpp:724-727). -/
def is_bit_castable (frm toT : DataType) : Bool :=
  is_bit_castable_from (idToCType frm.id) toT

/-- Runtime (`data_type`) version of `cudf::is_numeric` (traits.hpp:202-205):
dispatch the tag and evaluate the compile-time predicate. -/
def is_numeric_dt (t : DataType) : Bool := is_numeric (idToCType t.id)

/-- Runtime version of `cudf::is_boolean` (traits.hpp:357-360). -/
def is_boolean_dt (t : DataType) : Bool := is_boolean (idToCType t.id)

/-- Runtime version of `cudf::is_timestamp` (traits.hpp:392-395). -/
def is_timestamp_dt (t : DataType) : Bool := is_timestamp (idToCType t.id)

/-- Runtime version of `cudf::is_duration` (traits.hpp:460-463). -/
def is_duration_dt (t : DataType) : Bool := is_duration (idToCType t.id)

/-- Runtime version of `cudf::is_chrono` (traits.hpp:496-499). -/
def is_chrono_dt (t : DataType) : Bool := is_chrono (idToCType t.id)

/-- Runtime version of `cudf::is_fixed_point` (traits.hpp:425-428). -/
def is_fixed_point_dt (t : DataType) : Bool := is_fixed_point (idToCType t.id)

/-- Runtime version of `cudf::is_dictionary` (traits.hpp:546-549). -/
def is_dictionary_dt (t : DataType) : Bool := is_dictionary (idToCType t.id)

/-- Runtime version of `cudf::is_fixed_width` (traits.hpp:584-587). -/
def is_fixed_width_dt (t : DataType) : Bool := is_fixed_width (idToCType t.id)

/-- Runtime version of `cudf::is_compound` (traits.hpp:630-633). -/
def is_compound_dt (t : DataType) : Bool := is_compound (idToCType t.id)

/-- Runtime version of `cudf::is_nested` (traits.hpp:671-674). -/
def is_nested_dt (t : DataType) : Bool := is_nested (idToCType t.id)

/-- Membership in the "list" family: the tag dispatches to `list_view`. -/
def is_list_dt (t : DataType) : Bool := idToCType t.id == .list_view

/-- Membership in the "struct" family: the tag dispatches to `struct_view`. -/
def is_struct_dt (t : DataType) : Bool := idToCType t.id == .struct_view

/-- Membership in the "string" family: the tag dispatches to `string_view`. -/
def is_string_dt (t : DataType) : Bool := idToCType t.id == .string_view

/-- The storage byte size of a `data_type`: size of its device storage
representation. -/
def storage_size (t : DataType) : Nat :=
  cppSizeof (device_storage_type (idToCType t.id))

/-- How many of the nine trait families (numeric, timestamp, duration,
fixed-point, boolean, dictionary, list, struct, string) hold of a type. -/
def familyCount (t : DataType) : Nat :=
  ([is_numeric_dt t, is_timestamp_dt t, is_duration_dt t, is_fixed_point_dt t,
    is_boolean_dt t, is_dictionary_dt t, is_list_dt t, is_struct_dt t,
    is_string_dt t].filter (· = true)).length


/-! ## Column views and `cudf::detail::slice` -/

/-- `cudf::UNKNOWN_NULL_COUNT` sentinel (types.hpp): marks a view whose
null count has not been computed yet. -/
def UNKNOWN_NULL_COUNT : Int := -1

/-- A `cudf::column_view` as described by the spec's data model: logical
type, element count, raw value storage ("head", modelled as a total map
from absolute element positions to stored values), optional null bitmask
(modelled as a map from absolute positions to validity bits), null count,
offset into the storage, and child views. -/
inductive ColumnView : Type where
  | mk (dtype : DataType) (size : Int) (head : Int → Int)
       (null_mask : Option (Int → Bool)) (null_count : Int)
       (offset : Int) (children : List ColumnView)

def ColumnView.dtype : ColumnView → DataType
  | .mk d _ _ _ _ _ _ => d

def ColumnView.size : ColumnView → Int
  | .mk _ s _ _ _ _ _ => s

def ColumnView.head : ColumnView → (Int → Int)
  | .mk _ _ h _ _ _ _ => h

def ColumnView.null_mask : ColumnView → Option (Int → Bool)
  | .mk _ _ _ m _ _ _ => m

def ColumnView.null_count : ColumnView → Int
  | .mk _ _ _ _ c _ _ => c

def ColumnView.offset : ColumnView → Int
  | .mk _ _ _ _ _ o _ => o

def ColumnView.children : ColumnView → List ColumnView
  | .mk _ _ _ _ _ _ cs => cs

/-- Modelled from the spec: element value access of a `column_view`
(`column_view.hpp` is not part of the reviewed sources).  The value of
logical row `i` is read from the head storage at the absolute position
`offset + i`. -/
def elementValue (v : ColumnView) (i : Int) : Int :=
  v.head (v.offset + i)

/-- Modelled from the spec: element validity of a `column_view`.  The
null bitmask, when present, "is indexed using the absolute position
(offset + local index)"; a view with no bitmask has all rows valid. -/
def elementValid (v : ColumnView) (i : Int) : Bool :=
  match v.null_mask with
  | none => true
  | some m => m (v.offset + i)

/-- `cudf::detail::slice` (detail/copy.hpp:44-67): checks
`begin >= 0`, `end >= begin`, `end <= input.size()`, copies the child
views, and returns a view with the same type, head and null mask, size
`end - begin`, offset `input.offset() + begin` and `UNKNOWN_NULL_COUNT`.
The exclusive upper bound `end` is named `e` (`end` is reserved in Lean). -/
def slice (input : ColumnView) (b e : Int) : Except String ColumnView :=
  if ¬ (b ≥ 0) then .error "Invalid beginning of range."
  else if ¬ (e ≥ b) then .error "Invalid end of range."
  else if ¬ (e ≤ input.size) then .error "Slice range out of bounds."
  else .ok (.mk input.dtype (e - b) input.head input.null_mask
                UNKNOWN_NULL_COUNT (input.offset + b) input.children)

/-! ## Pack / unpack

The implementations of `cudf::pack` / `cudf::unpack` (copying/contiguous
split engine) are not among the reviewed sources -- only the declaration of
`pack` in `detail/copy.hpp:148-150` is.  They are modelled from the spec. -/

/-- One column of a table for packing purposes: a logical type and the
column's cells, each cell a value together with its validity (`none` is a
null cell). -/
structure TableColumn : Type where
  dtype : DataType
  cells : List (Option Int)
  deriving Repr

/-- Modelled from the spec: one metadata record of a packed table,
"describing the tree of column shapes/types/offsets"; `data_offset` is
"relative to the start of the data block, not absolute". -/
structure PackedColumnMeta : Type where
  dtype : DataType
  row_count : Nat
  data_offset : Nat
  deriving Repr

/-- Modelled from the spec: `packed_columns` = "serialized metadata
(describing the tree of column shapes/types/offsets) plus a second
contiguous byte block containing the actual values and null masks". -/
structure PackedColumns : Type where
  metadata : List PackedColumnMeta
  data : List (Option Int)
  deriving Repr

/-- Metadata records for a list of columns laid out consecutively in the
data block starting at relative offset `off`. -/
def packMeta : List TableColumn → Nat → List PackedColumnMeta
  | [], _ => []
  | c :: cs, off => ⟨c.dtype, c.cells.length, off⟩ :: packMeta cs (off + c.cells.length)

/-- Modelled from the spec: `pack(table)` "serializes views into a
packed_table = \x7bmetadata byte block describing structure/types/offsets,
data byte block\x7d"; the data block is the concatenation of every
column's cells and the stored offsets are relative to its start. -/
def pack (t : List TableColumn) : PackedColumns :=
  ⟨packMeta t 0, (t.map TableColumn.cells).flatten⟩

/-- Modelled from the spec: `unpack(packed_table)` "reconstructs
ColumnViews by reading metadata and adding the actual base address of the
supplied data block to every stored relative offset": each column is read
back from the data block at its stored relative offset. -/
def unpack (p : PackedColumns) : List TableColumn :=
  p.metadata.map fun m => ⟨m.dtype, (p.data.drop m.data_offset).take m.row_count⟩

/-! ## Scalar factories (`src/scalar/scalar_factories.cpp`) -/

/-- The payload of a boxed scalar. -/
inductive ScalarValue : Type where
  | fixed (v : Int)
  | str (s : String)
  | list (elements : ColumnView)
  | struct_data (data : List ColumnView)

/-- A `cudf::scalar`: a boxed single value of a given logical type with a
validity flag (spec data model). -/
structure Scalar : Type where
  dtype : DataType
  is_valid : Bool
  value : ScalarValue

/-- `scalar->set_valid_async(valid, stream)`: update the validity flag. -/
def Scalar.set_valid (s : Scalar) (b : Bool) : Scalar :=
  ⟨s.dtype, b, s.value⟩

/-- `scalar_construction_helper` (scalar_factories.cpp:28-58): for a
fixed-width, non-fixed-point type builds `ScalarType(Type\x7b\x7d, false)`
(zero value, invalid, type carrying the dispatched id with default scale
0); for a fixed-point type builds
`ScalarType(Type\x7b\x7d, numeric::scale_type\x7b0\x7d, false)` -- note the
hard-coded scale 0; for any non-fixed-width type fails with
`CUDF_FAIL("Invalid type.")`. -/
def scalar_construction_helper (t : DataType) : Except String Scalar :=
  let c := idToCType t.id
  if is_fixed_width c && !is_fixed_point c then
    .ok ⟨⟨t.id, 0⟩, false, .fixed 0⟩
  else if is_fixed_point c then
    .ok ⟨⟨t.id, 0⟩, false, .fixed 0⟩
  else
    .error "Invalid type."

/-- `cudf::make_numeric_scalar` (scalar_factories.cpp:62-69). -/
def make_numeric_scalar (t : DataType) : Except String Scalar :=
  if !is_numeric_dt t then .error "Invalid, non-numeric type."
  else scalar_construction_helper t

/-- `cudf::make_timestamp_scalar` (scalar_factories.cpp:72-79). -/
def make_timestamp_scalar (t : DataType) : Except String Scalar :=
  if !is_timestamp_dt t then .error "Invalid, non-timestamp type."
  else scalar_construction_helper t

/-- `cudf::make_duration_scalar` (scalar_factories.cpp:82-89). -/
def make_duration_scalar (t : DataType) : Except String Scalar :=
  if !is_duration_dt t then .error "Invalid, non-duration type."
  else scalar_construction_helper t

/-- `cudf::make_fixed_width_scalar` (scalar_factories.cpp:92-99). -/
def make_fixed_width_scalar (t : DataType) : Except String Scalar :=
  if !is_fixed_width_dt t then .error "Invalid, non-fixed-width type."
  else scalar_construction_helper t

/-- `cudf::make_list_scalar` (scalar_factories.cpp:101-106):
`list_scalar(elements, true)` -- a valid list scalar of type `LIST`
holding the element column. -/
def make_list_scalar (elements : ColumnView) : Scalar :=
  ⟨⟨.LIST, 0⟩, true, .list elements⟩

/-- `default_scalar_functor` dispatched by
`cudf::make_default_constructed_scalar` (scalar_factories.cpp:122-167):
specialised to an empty invalid string scalar for `string_view`, to
`CUDF_FAIL` for `dictionary32`, `list_view` and `struct_view`, and
otherwise calls `make_fixed_width_scalar(data_type(type_to_id<T>()))`
(a fresh `data_type` built from the id alone, default scale). -/
def make_default_constructed_scalar (t : DataType) : Except String Scalar :=
  match idToCType t.id with
  | .string_view => .ok ⟨⟨.STRING, 0⟩, false, .str ""⟩
  | .dictionary32 => .error "dictionary type not supported"
  | .list_view => .error "list_view type not supported"
  | .struct_view => .error "struct_view type not supported"
  | _ => make_fixed_width_scalar ⟨t.id, 0⟩

/-- Modelled from the spec: `cudf::empty_like` (not among the reviewed
sources) creates an empty (zero-row) column of the same logical type as
the input. -/
def empty_like (c : ColumnView) : ColumnView :=
  .mk c.dtype 0 (fun _ => 0) none 0 0 []

/-- Modelled from the spec: `cudf::detail::get_element` (declared in
`detail/copy.hpp:235-239`, implementation not among the reviewed sources)
"extracts the single value (and null-ness) at a given row position into a
boxed Scalar; fails if index is out of [0, view.count)". -/
def get_element (c : ColumnView) (i : Int) : Except String Scalar :=
  if 0 ≤ i ∧ i < c.size then .ok ⟨c.dtype, elementValid c i, .fixed (elementValue c i)⟩
  else .error "Index out of range"

/-- `cudf::make_empty_scalar_like` (scalar_factories.cpp:169-187):
switches on the column's type id; `LIST` builds a list scalar over
`empty_like(column)` and marks it invalid, `STRUCT` extracts row 0 and
marks it invalid, everything else defers to
`make_default_constructed_scalar(column.type())`. -/
def make_empty_scalar_like (c : ColumnView) : Except String Scalar :=
  match c.dtype.id with
  | .LIST => .ok ((make_list_scalar (empty_like c)).set_valid false)
  | .STRUCT => (get_element c 0).map (fun s => s.set_valid false)
  | _ => make_default_constructed_scalar c.dtype

/-! ## Auxiliary definitions for concrete evaluations -/

/-- Whether an `Except` computation succeeded. -/
def exceptOk {α : Type} : Except String α → Bool
  | .ok _ => true
  | .error _ => false

/-- A concrete four-row INT32 column view used to evaluate theorems with
hypotheses on explicit inputs. -/
def sampleView : ColumnView :=
  .mk ⟨.INT32, 0⟩ 4 (fun i => 10 + i) none 0 0 []

/-- A concrete three-row dictionary column view. -/
def dictColumn : ColumnView :=
  .mk ⟨.DICTIONARY32, 0⟩ 3 (fun _ => 0) none 0 0 []

/-- A concrete three-row DECIMAL32 column view with scale -2. -/
def decimalColumn : ColumnView :=
  .mk ⟨.DECIMAL32, -2⟩ 3 (fun _ => 0) none 0 0 []

/-! ## Theorems: trait registry (claims on traits.hpp) -/

/-- C3 counterexample: the claim that exactly one of the nine trait
families holds of every type -- and in particular that `BOOL8` satisfies
`is_boolean` and none of the other eight, including `is_numeric` -- is
false: `BOOL8` dispatches to C++ `bool`, which `std::is_integral` accepts,
so `is_numeric(BOOL8)` holds alongside `is_boolean(BOOL8)`. -/
theorem bool8_is_numeric_and_boolean :
    is_numeric_dt ⟨.BOOL8, 0⟩ = true ∧ is_boolean_dt ⟨.BOOL8, 0⟩ = true := by
  decide

/-- C3 (amended): every type belongs to at least one of the nine trait
families (numeric, timestamp, duration, fixed-point, boolean, dictionary,
list, struct, string); the families are pairwise disjoint except that the
boolean type `BOOL8` also counts as numeric, so `BOOL8` lies in exactly
two families and every other type in exactly one. -/
theorem family_classification (t : DataType) :
    (familyCount t = if is_boolean_dt t then 2 else 1) ∧
    (is_boolean_dt t = (t.id == TypeId.BOOL8)) ∧
    ((is_boolean_dt t && is_numeric_dt t) = is_boolean_dt t) := by
  obtain ⟨i, s⟩ := t
  cases i <;> exact ⟨rfl, rfl, rfl⟩

/-- C4: `is_chrono` holds exactly when `is_timestamp` or `is_duration`
does, `is_nested` holds exactly of the list and struct types, and a
compound type is never fixed-width. -/
theorem chrono_nested_compound_traits (t : DataType) :
    (is_chrono_dt t = (is_timestamp_dt t || is_duration_dt t)) ∧
    (is_nested_dt t = (t.id == TypeId.LIST || t.id == TypeId.STRUCT)) ∧
    (is_compound_dt t = true → is_fixed_width_dt t = false) := by
  obtain ⟨i, s⟩ := t
  exact (by decide :
    ∀ a : TypeId,
      (is_chrono_dt ⟨a, 0⟩ = (is_timestamp_dt ⟨a, 0⟩ || is_duration_dt ⟨a, 0⟩)) ∧
      (is_nested_dt ⟨a, 0⟩ = (a == TypeId.LIST || a == TypeId.STRUCT)) ∧
      (is_compound_dt ⟨a, 0⟩ = true → is_fixed_width_dt ⟨a, 0⟩ = false)) i

/-- C4 witness: evaluated on the compound type `STRING`. -/
theorem chrono_nested_compound_traits_witness :
    is_compound_dt ⟨.STRING, 0⟩ = true ∧ is_fixed_width_dt ⟨.STRING, 0⟩ = false :=
  ⟨by decide, (chrono_nested_compound_traits ⟨.STRING, 0⟩).2.2 (by decide)⟩

/-- C5: `is_bit_castable(T, T)` holds for every non-compound type `T`, and
`is_bit_castable(T, U)` is false whenever the storage representations of
`T` and `U` differ in byte size. -/
theorem bit_castable_spec :
    (∀ t : DataType, is_compound_dt t = false → is_bit_castable t t = true) ∧
    (∀ t u : DataType, storage_size t ≠ storage_size u →
      is_bit_castable t u = false) := by
  constructor
  · intro t h
    obtain ⟨i, s⟩ := t
    exact (by decide :
      ∀ a : TypeId, is_compound_dt ⟨a, 0⟩ = false →
        is_bit_castable ⟨a, 0⟩ ⟨a, 0⟩ = true) i h
  · intro t u h
    obtain ⟨i, s⟩ := t
    obtain ⟨j, r⟩ := u
    exact (by decide :
      ∀ a b : TypeId,
        cppSizeof (device_storage_type (idToCType a)) ≠
          cppSizeof (device_storage_type (idToCType b)) →
        is_bit_castable ⟨a, 0⟩ ⟨b, 0⟩ = false) i j h

/-- C5 witness: `INT32` self-cast succeeds; `INT32` to `INT64` (different
storage sizes) fails. -/
theorem bit_castable_spec_witness :
    is_compound_dt ⟨.INT32, 0⟩ = false ∧
    is_bit_castable ⟨.INT32, 0⟩ ⟨.INT32, 0⟩ = true ∧
    storage_size ⟨.INT32, 0⟩ ≠ storage_size ⟨.INT64, 0⟩ ∧
    is_bit_castable ⟨.INT32, 0⟩ ⟨.INT64, 0⟩ = false :=
  ⟨by decide, bit_castable_spec.1 ⟨.INT32, 0⟩ (by decide), by decide,
    bit_castable_spec.2 ⟨.INT32, 0⟩ ⟨.INT64, 0⟩ (by decide)⟩

/-! ## Theorems: slice (claims on detail/copy.hpp) -/

/-- C1: for valid bounds `0 <= b <= e <= v.size`, `slice v b e` succeeds
and returns a view with count `e - b` and offset `v.offset + b` that
preserves the input's logical type, head pointer and null-bitmask pointer
and propagates the children by reference, and whose element `i` agrees
with the input's element `b + i` in value and validity for every
`0 <= i < e - b`. -/
theorem slice_spec (v : ColumnView) (b e : Int)
    (h0 : 0 ≤ b) (h1 : b ≤ e) (h2 : e ≤ v.size) :
    ∃ w, slice v b e = .ok w ∧
      w.size = e - b ∧ w.offset = v.offset + b ∧ w.dtype = v.dtype ∧
      w.head = v.head ∧ w.null_mask = v.null_mask ∧ w.children = v.children ∧
      ∀ i : Int, 0 ≤ i → i < e - b →
        elementValue w i = elementValue v (b + i) ∧
        elementValid w i = elementValid v (b + i) := by
  obtain ⟨d, sz, hd, nm, nc, off, ch⟩ := v
  refine ⟨.mk d (e - b) hd nm UNKNOWN_NULL_COUNT (off + b) ch,
    ?_, rfl, rfl, rfl, rfl, rfl, rfl, ?_⟩
  · unfold slice
    rw [if_neg (not_not_intro h0), if_neg (not_not_intro h1),
      if_neg (not_not_intro h2)]
    rfl
  · intro i hi0 hi1
    refine ⟨?_, ?_⟩
    · show hd (off + b + i) = hd (off + (b + i))
      rw [add_assoc]
    · cases nm with
      | none => rfl
      | some m =>
          show m (off + b + i) = m (off + (b + i))
          rw [add_assoc]

/-- C1 witness: `slice` of the concrete column `sampleView` over `[1, 3)`. -/
theorem slice_spec_witness :
    (0 : Int) ≤ 1 ∧ (1 : Int) ≤ 3 ∧ (3 : Int) ≤ sampleView.size ∧
    (∃ w, slice sampleView 1 3 = .ok w ∧
      w.size = 3 - 1 ∧ w.offset = sampleView.offset + 1 ∧
      w.dtype = sampleView.dtype ∧ w.head = sampleView.head ∧
      w.null_mask = sampleView.null_mask ∧ w.children = sampleView.children ∧
      ∀ i : Int, 0 ≤ i → i < 3 - 1 →
        elementValue w i = elementValue sampleView (1 + i) ∧
        elementValid w i = elementValid sampleView (1 + i)) :=
  ⟨by decide, by decide, by decide,
    slice_spec sampleView 1 3 (by decide) (by decide) (by decide)⟩

/-- C6: `slice` fails exactly when `b < 0`, `e < b` or `e > v.size`, and
succeeds for every other pair of bounds. -/
theorem slice_error_iff (v : ColumnView) (b e : Int) :
    ((∃ msg, slice v b e = .error msg) ↔ (b < 0 ∨ e < b ∨ e > v.size)) ∧
    ((∃ w, slice v b e = .ok w) ↔ ¬(b < 0 ∨ e < b ∨ e > v.size)) := by
  unfold slice
  split_ifs with h1 h2 h3 <;> refine ⟨?_, ?_⟩ <;> simp_all

/-- C10: every successful slice carries the `UNKNOWN_NULL_COUNT` sentinel
as its null count, regardless of the input view's null count. -/
theorem slice_null_count_unknown (v : ColumnView) (b e : Int) (w : ColumnView)
    (h : slice v b e = .ok w) : w.null_count = UNKNOWN_NULL_COUNT := by
  unfold slice at h
  split_ifs at h
  injection h with h2
  subst h2
  rfl

/-- C10 witness: the slice of `sampleView` over `[1, 3)` evaluated
concretely; the input view's null count is 0 (known), the output's is the
sentinel. -/
theorem slice_null_count_unknown_witness :
    (ColumnView.mk ⟨.INT32, 0⟩ (3 - 1) (fun i => 10 + i) none
      UNKNOWN_NULL_COUNT (0 + 1) []).null_count = UNKNOWN_NULL_COUNT :=
  slice_null_count_unknown sampleView 1 3 _ rfl

/-! ## Theorems: pack / unpack round trip -/

/-- Reading each packed column back from the data block at its stored
relative offset recovers the original columns, for any already-laid-out
prefix of the data block. -/
theorem unpack_packMeta (t : List TableColumn) :
    ∀ pre : List (Option Int),
      (packMeta t pre.length).map
        (fun m => TableColumn.mk m.dtype
          (((pre ++ (t.map TableColumn.cells).flatten).drop m.data_offset).take
            m.row_count)) = t := by
  induction t with
  | nil => intro pre; rfl
  | cons c cs ih =>
      intro pre
      obtain ⟨d, cells⟩ := c
      simp only [packMeta, List.map_cons, List.flatten_cons]
      rw [List.drop_left, List.take_left]
      congr 1
      rw [← List.length_append, ← List.append_assoc]
      exact ih (pre ++ cells)

/-- C2: unpacking a packed table yields the original table back -- the
same number of columns, and for each column the same logical type and the
same cells (value and validity alike), hence the same row count. -/
theorem unpack_pack_roundtrip (t : List TableColumn) : unpack (pack t) = t :=
  unpack_packMeta t []

/-! ## Theorems: scalar factories -/

/-- C7 counterexample: `make_fixed_width_scalar` on `DECIMAL32` with scale
1 succeeds but returns a scalar whose type has scale 0 (the helper passes
`numeric::scale_type\x7b0\x7d`, scalar_factories.cpp:47), so the scalar's
type is not the requested type `t`. -/
theorem make_fixed_width_scalar_scale_counterexample :
    make_fixed_width_scalar ⟨.DECIMAL32, 1⟩ =
      .ok ⟨⟨.DECIMAL32, 0⟩, false, .fixed 0⟩ ∧
    DataType.mk .DECIMAL32 0 ≠ DataType.mk .DECIMAL32 1 :=
  ⟨rfl, by decide⟩

/-- C7 (amended): each factory fails exactly when its trait predicate
rejects the type; otherwise it returns a zero-valued, invalid scalar whose
type id equals `t.id` but whose scale is always 0 -- so for a fixed-point
`t` with nonzero scale the returned scalar's type differs from `t` in the
scale. -/
theorem scalar_factories_spec (t : DataType) :
    (make_numeric_scalar t =
      if is_numeric_dt t then .ok ⟨⟨t.id, 0⟩, false, .fixed 0⟩
      else .error "Invalid, non-numeric type.") ∧
    (make_timestamp_scalar t =
      if is_timestamp_dt t then .ok ⟨⟨t.id, 0⟩, false, .fixed 0⟩
      else .error "Invalid, non-timestamp type.") ∧
    (make_duration_scalar t =
      if is_duration_dt t then .ok ⟨⟨t.id, 0⟩, false, .fixed 0⟩
      else .error "Invalid, non-duration type.") ∧
    (make_fixed_width_scalar t =
      if is_fixed_width_dt t then .ok ⟨⟨t.id, 0⟩, false, .fixed 0⟩
      else .error "Invalid, non-fixed-width type.") := by
  obtain ⟨i, s⟩ := t
  cases i <;> exact ⟨rfl, rfl, rfl, rfl⟩

/-- C8: `make_default_constructed_scalar` succeeds for every type except
dictionary, list and struct, where it fails; for `STRING` (any stored
scale) it returns the empty string, invalid. -/
theorem make_default_constructed_scalar_spec :
    (∀ t : DataType, exceptOk (make_default_constructed_scalar t) =
      !(t.id == TypeId.DICTIONARY32 || t.id == TypeId.LIST ||
        t.id == TypeId.STRUCT)) ∧
    (∀ s : Int, make_default_constructed_scalar ⟨.STRING, s⟩ =
      .ok ⟨⟨.STRING, 0⟩, false, .str ""⟩) := by
  constructor
  · intro t
    obtain ⟨i, s⟩ := t
    cases i <;> rfl
  · intro s
    rfl

/-- C9 counterexample: `make_empty_scalar_like` does not return a scalar
for every column -- on a dictionary column it fails -- and on a DECIMAL32
column with scale -2 it returns a scalar whose type (scale 0) differs from
the column's. -/
theorem make_empty_scalar_like_counterexample :
    make_empty_scalar_like dictColumn = .error "dictionary type not supported" ∧
    make_empty_scalar_like decimalColumn =
      .ok ⟨⟨.DECIMAL32, 0⟩, false, .fixed 0⟩ ∧
    DataType.mk .DECIMAL32 0 ≠ decimalColumn.dtype :=
  ⟨rfl, rfl, by decide⟩

/-- C9 (amended): for every column whose type is not dictionary and whose
scale is 0 (and which is non-empty if it is a struct column),
`make_empty_scalar_like` returns an invalid scalar of the column's logical
type; for `LIST` it is the invalidated list scalar over
`empty_like(column)`, for `STRUCT` it is the element extracted from row 0
marked invalid, and for every other type it is exactly the result of
`make_default_constructed_scalar(column.type())`. -/
theorem make_empty_scalar_like_spec (c : ColumnView)
    (hdict : c.dtype.id ≠ .DICTIONARY32) (hscale : c.dtype.scale = 0)
    (hstruct : c.dtype.id = .STRUCT → 0 < c.size) :
    ∃ s, make_empty_scalar_like c = .ok s ∧ s.dtype = c.dtype ∧
      s.is_valid = false ∧
      (c.dtype.id = .LIST →
        s = (make_list_scalar (empty_like c)).set_valid false) ∧
      (c.dtype.id = .STRUCT →
        (get_element c 0).map (fun x => x.set_valid false) = .ok s) ∧
      (c.dtype.id ≠ .LIST → c.dtype.id ≠ .STRUCT →
        make_default_constructed_scalar c.dtype = .ok s) := by
  obtain ⟨⟨i, sc⟩, sz, hd, nm, nc, off, ch⟩ := c
  replace hscale : sc = 0 := hscale
  subst hscale
  cases i
  case DICTIONARY32 => exact absurd rfl hdict
  case LIST =>
    exact ⟨_, rfl, rfl, rfl, fun _ => rfl, fun h => TypeId.noConfusion h,
      fun hL _ => absurd rfl hL⟩
  case STRUCT =>
    have hpos : (0 : Int) < sz := hstruct rfl
    have hg : (get_element (ColumnView.mk ⟨.STRUCT, 0⟩ sz hd nm nc off ch) 0).map
        (fun x => x.set_valid false) =
        .ok ⟨⟨.STRUCT, 0⟩, false,
          .fixed (elementValue (ColumnView.mk ⟨.STRUCT, 0⟩ sz hd nm nc off ch) 0)⟩ := by
      unfold get_element
      rw [if_pos ⟨le_refl 0, hpos⟩]
      rfl
    exact ⟨_, hg, rfl, rfl, fun h => TypeId.noConfusion h, fun _ => hg,
      fun _ hS => absurd rfl hS⟩
  all_goals
    exact ⟨_, rfl, rfl, rfl, fun h => TypeId.noConfusion h,
      fun h => TypeId.noConfusion h, fun _ _ => rfl⟩

/-- C9 witness: evaluated on the concrete INT32 column `sampleView`. -/
theorem make_empty_scalar_like_spec_witness :
    sampleView.dtype.id ≠ .DICTIONARY32 ∧ sampleView.dtype.scale = 0 ∧
    (∃ s, make_empty_scalar_like sampleView = .ok s ∧
      s.dtype = sampleView.dtype ∧ s.is_valid = false ∧
      (sampleView.dtype.id = .LIST →
        s = (make_list_scalar (empty_like sampleView)).set_valid false) ∧
      (sampleView.dtype.id = .STRUCT →
        (get_element sampleView 0).map (fun x => x.set_valid false) = .ok s) ∧
      (sampleView.dtype.id ≠ .LIST → sampleView.dtype.id ≠ .STRUCT →
        make_default_constructed_scalar sampleView.dtype = .ok s)) :=
  ⟨by decide, by decide,
    make_empty_scalar_like_spec sampleView (by decide) (by decide)
      (fun h => absurd h (by decide))⟩

end Cudf
